import Mathlib

/-!
A shallow embedding of `waybacknews/searchapi.py` (class `SearchApiClient`).

Python JSON-ish values are modelled by the inductive type `Val`; Python dicts
are association lists in insertion order (keys unique in practice).  The HTTP
layer is modelled by a mocked network: a function from requests to responses,
so that each method returns both its result (an `Except`, since missing keys
raise) and the trace of requests it issued.  Machine-local behaviour of the
external libraries `requests` and `ciso8601` is modelled at the granularity
the client observes: a response is a parsed JSON body plus a header mapping,
and `parse_datetime` on a `YYYY-MM-DD` string yields midnight of that day,
whose `timestamp()` is taken as POSIX seconds (UTC interpretation).
-/

namespace WaybackNews

/-- A Python value as the client sees it: strings, integers, lists, dicts
(association lists in insertion order), and datetime objects. -/
inductive Val where
  | str : String → Val
  | int : Int → Val
  | arr : List Val → Val
  | obj : List (String × Val) → Val
  | dt : Nat → Nat → Nat → Nat → Nat → Nat → Val

/-- A Python dict with string keys, in insertion order. -/
abbrev Dict := List (String × Val)

/-- Lookup of a string key in an association list (first occurrence). -/
def getKey? {α : Type} : List (String × α) → String → Option α
  | [], _ => none
  | p :: rest, k => if p.1 = k then some p.2 else getKey? rest k

/-- Python `k in d`: key membership in a dict. -/
def hasKey {α : Type} (d : List (String × α)) (k : String) : Bool :=
  (getKey? d k).isSome

/-- Python `d[k] = v`: replace the value at the first occurrence of `k`,
or append the binding if the key is absent. -/
def dictSet {α : Type} : List (String × α) → String → α → List (String × α)
  | [], k, v => [(k, v)]
  | p :: rest, k, v => if p.1 = k then (k, v) :: rest else p :: dictSet rest k v

/-- Python `d.update(kw)`: set each binding of `kw` into `d`, left to right. -/
def dictUpdate {α : Type} (d kw : List (String × α)) : List (String × α) :=
  kw.foldl (fun acc p => dictSet acc p.1 p.2) d

/-- A naive `datetime.datetime` value (no timezone, microseconds dropped). -/
structure PyDateTime where
  year : Nat
  month : Nat
  day : Nat
  hour : Nat
  minute : Nat
  second : Nat
deriving DecidableEq, Repr

/-- Python datetime comparison: lexicographic on the components. -/
def dtLe (a b : PyDateTime) : Prop :=
  a.year < b.year ∨ (a.year = b.year ∧
    (a.month < b.month ∨ (a.month = b.month ∧
      (a.day < b.day ∨ (a.day = b.day ∧
        (a.hour < b.hour ∨ (a.hour = b.hour ∧
          (a.minute < b.minute ∨ (a.minute = b.minute ∧
            a.second ≤ b.second)))))))))

instance (a b : PyDateTime) : Decidable (dtLe a b) := by
  unfold dtLe; infer_instance

/-- Zero-pad the decimal rendering of `n` to width `w`. -/
def padNum (w : Nat) (n : Nat) : String :=
  let s := toString n
  String.mk (List.replicate (w - s.length) (Char.ofNat 48)) ++ s

/-- `d.strftime("%Y-%m-%d")`: the calendar day, zero-padded. -/
def strftimeYmd (d : PyDateTime) : String :=
  padNum 4 d.year ++ "-" ++ padNum 2 d.month ++ "-" ++ padNum 2 d.day

/-- Days from 1970-01-01 of a proleptic Gregorian civil date. -/
def daysFromCivil (y : Int) (m d : Nat) : Int :=
  let y2 : Int := if m ≤ 2 then y - 1 else y
  let era : Int := (if 0 ≤ y2 then y2 else y2 - 399) / 400
  let yoe : Int := y2 - era * 400
  let doy : Int := (153 * (if 2 < m then (m : Int) - 3 else (m : Int) + 9) + 2) / 5 + d - 1
  let doe : Int := yoe * 365 + yoe / 4 - yoe / 100 + doy
  era * 146097 + doe - 719468

/-- `datetime.timestamp()` of a naive datetime, interpreted in UTC:
POSIX seconds since the epoch. -/
def PyDateTime.timestamp (d : PyDateTime) : Int :=
  daysFromCivil (Int.ofNat d.year) d.month d.day * 86400
    + d.hour * 3600 + d.minute * 60 + d.second

/-- Is `y` a Gregorian leap year. -/
def isLeap (y : Nat) : Bool :=
  (y % 4 == 0 && y % 100 != 0) || y % 400 == 0

/-- Number of days in month `m` of year `y`. -/
def daysInMonth (y m : Nat) : Nat :=
  if m = 2 then (if isLeap y then 29 else 28)
  else if m = 4 ∨ m = 6 ∨ m = 9 ∨ m = 11 then 30
  else 31

/-- Digits of a numeral, most significant first, as a number. -/
def digitsToNat (cs : List Char) : Nat :=
  cs.foldl (fun acc c => acc * 10 + (c.toNat - 48)) 0

/-- Split a character list on a separator character. -/
def splitOnChar (c : Char) : List Char → List (List Char)
  | [] => [[]]
  | x :: xs =>
    match splitOnChar c xs with
    | [] => if x = c then [[], []] else [[x]]
    | y :: ys => if x = c then [] :: y :: ys else (x :: y) :: ys

/-- `ciso8601.parse_datetime` restricted to `YYYY-MM-DD` date strings (the
format the service uses for `dailycounts` keys): midnight of that day, or
failure for a malformed string. -/
def parse_datetime (s : String) : Option PyDateTime :=
  match splitOnChar (Char.ofNat 45) s.data with
  | [ys, ms, ds] =>
    if ys.length = 4 ∧ ms.length = 2 ∧ ds.length = 2
        ∧ ys.all Char.isDigit ∧ ms.all Char.isDigit ∧ ds.all Char.isDigit then
      if 1 ≤ digitsToNat ms ∧ digitsToNat ms ≤ 12 ∧ 1 ≤ digitsToNat ds
          ∧ digitsToNat ds ≤ daysInMonth (digitsToNat ys) (digitsToNat ms) then
        some ⟨digitsToNat ys, digitsToNat ms, digitsToNat ds, 0, 0, 0⟩
      else none
    else none
  | _ => none

/-- The API version segment of the base URL. -/
def VERSION : String := "v1"

/-- `SearchApiClient.API_BASE_URL`. -/
def API_BASE_URL : String :=
  "http://colsearch.sawood-dev.us.archive.org:8000/" ++ VERSION ++ "/"

/-- A mocked HTTP response: parsed JSON body plus response headers. -/
structure MockResponse where
  body : Val
  headers : List (String × String)

/-- An issued HTTP request as the client builds it: full URL, the parameter
mapping (query string for GET, JSON body for POST), and the method. -/
structure Request where
  url : String
  params : Option Dict
  method : String

/-- A mocked network: what response each request receives. -/
abbrev Net := Request → MockResponse

/-- A single-quote character, for building the Python error message. -/
def squote : String := String.mk [Char.ofNat 39]

/-- `SearchApiClient._query`: dispatch one request, returning the parsed body
together with the raw response, plus the trace of requests actually issued.
An unsupported method raises before any request is made. -/
def _query (net : Net) (endpoint : String) (params : Option Dict) (method : String) :
    Except String (Val × MockResponse) × List Request :=
  let endpoint_url := API_BASE_URL ++ endpoint
  if method = "GET" then
    let req : Request := ⟨endpoint_url, params, "GET"⟩
    (Except.ok ((net req).body, net req), [req])
  else if method = "POST" then
    let req : Request := ⟨endpoint_url, params, "POST"⟩
    (Except.ok ((net req).body, net req), [req])
  else
    (Except.error ("Unsupported method of " ++ squote ++ method ++ squote), [])

/-- `SearchApiClient._date_query_clause`. -/
def _date_query_clause (start_date end_date : PyDateTime) : String :=
  "publication_date:[" ++ strftimeYmd start_date ++ " TO " ++ strftimeYmd end_date ++ "]"

/-- The parameter mapping every search-bearing call builds:
`params = {"q": "<query> AND <date clause>"}; params.update(kwargs)`. -/
def buildParams (query : String) (sd ed : PyDateTime) (kwargs : Dict) : Dict :=
  dictUpdate [("q", Val.str (query ++ " AND " ++ _date_query_clause sd ed))] kwargs

/-- `SearchApiClient._is_no_results`. -/
def _is_no_results (results : Dict) : Bool :=
  !hasKey results "matches" && hasKey results "detail" &&
    (match getKey? results "detail" with
     | some (Val.str s) => s == "No results found!"
     | _ => false)

/-- `SearchApiClient._overview_query`: POST the built parameters to
`<collection>/search/overview` and return the parsed envelope. -/
def _overview_query (col : String) (net : Net) (query : String) (sd ed : PyDateTime)
    (kwargs : Dict) : Except String Val × List Request :=
  let params := buildParams query sd ed kwargs
  match _query net (col ++ "/search/overview") (some params) "POST" with
  | (Except.ok (results, _), tr) => (Except.ok results, tr)
  | (Except.error e, tr) => (Except.error e, tr)

/-- The overview request a given call sends, for use in specifications. -/
def overviewRequest (col query : String) (sd ed : PyDateTime) (kwargs : Dict) : Request :=
  ⟨API_BASE_URL ++ (col ++ "/search/overview"), some (buildParams query sd ed kwargs), "POST"⟩

/-- `SearchApiClient._dict_to_list`. -/
def _dict_to_list (data : Dict) : List Val :=
  data.map (fun p => Val.obj [("name", Val.str p.1), ("value", p.2)])

/-- `SearchApiClient.sample`. -/
def sample (col : String) (net : Net) (query : String) (sd ed : PyDateTime) (kwargs : Dict) :
    Except String Val × List Request :=
  match _overview_query col net query sd ed kwargs with
  | (Except.error e, tr) => (Except.error e, tr)
  | (Except.ok (Val.obj results), tr) =>
    if _is_no_results results then (Except.ok (Val.arr []), tr)
    else
      match getKey? results "matches" with
      | some v => (Except.ok v, tr)
      | none => (Except.error "KeyError: matches", tr)
  | (Except.ok _, tr) => (Except.error "TypeError: envelope is not a mapping", tr)

/-- `SearchApiClient.top_sources`. -/
def top_sources (col : String) (net : Net) (query : String) (sd ed : PyDateTime) (kwargs : Dict) :
    Except String Val × List Request :=
  match _overview_query col net query sd ed kwargs with
  | (Except.error e, tr) => (Except.error e, tr)
  | (Except.ok (Val.obj results), tr) =>
    if _is_no_results results then (Except.ok (Val.arr []), tr)
    else
      match getKey? results "topdomains" with
      | some (Val.obj dd) => (Except.ok (Val.arr (_dict_to_list dd)), tr)
      | some _ => (Except.error "TypeError: topdomains is not a mapping", tr)
      | none => (Except.error "KeyError: topdomains", tr)
  | (Except.ok _, tr) => (Except.error "TypeError: envelope is not a mapping", tr)

/-- `SearchApiClient.top_tlds`. -/
def top_tlds (col : String) (net : Net) (query : String) (sd ed : PyDateTime) (kwargs : Dict) :
    Except String Val × List Request :=
  match _overview_query col net query sd ed kwargs with
  | (Except.error e, tr) => (Except.error e, tr)
  | (Except.ok (Val.obj results), tr) =>
    if _is_no_results results then (Except.ok (Val.arr []), tr)
    else
      match getKey? results "toptlds" with
      | some (Val.obj dd) => (Except.ok (Val.arr (_dict_to_list dd)), tr)
      | some _ => (Except.error "TypeError: toptlds is not a mapping", tr)
      | none => (Except.error "KeyError: toptlds", tr)
  | (Except.ok _, tr) => (Except.error "TypeError: envelope is not a mapping", tr)

/-- `SearchApiClient.top_languages`. -/
def top_languages (col : String) (net : Net) (query : String) (sd ed : PyDateTime) (kwargs : Dict) :
    Except String Val × List Request :=
  match _overview_query col net query sd ed kwargs with
  | (Except.error e, tr) => (Except.error e, tr)
  | (Except.ok (Val.obj results), tr) =>
    if _is_no_results results then (Except.ok (Val.arr []), tr)
    else
      match getKey? results "toplangs" with
      | some (Val.obj dd) => (Except.ok (Val.arr (_dict_to_list dd)), tr)
      | some _ => (Except.error "TypeError: toplangs is not a mapping", tr)
      | none => (Except.error "KeyError: toplangs", tr)
  | (Except.ok _, tr) => (Except.error "TypeError: envelope is not a mapping", tr)

/-- `SearchApiClient.count`. -/
def count (col : String) (net : Net) (query : String) (sd ed : PyDateTime) (kwargs : Dict) :
    Except String Val × List Request :=
  match _overview_query col net query sd ed kwargs with
  | (Except.error e, tr) => (Except.error e, tr)
  | (Except.ok (Val.obj results), tr) =>
    if _is_no_results results then (Except.ok (Val.int 0), tr)
    else
      match getKey? results "total" with
      | some v => (Except.ok v, tr)
      | none => (Except.error "KeyError: total", tr)
  | (Except.ok _, tr) => (Except.error "TypeError: envelope is not a mapping", tr)

/-- The per-day record list `count_over_time` builds from `dailycounts`,
failing if a date key does not parse. -/
def cotEntries : Dict → Option (List Val)
  | [] => some []
  | (k, v) :: rest =>
    match parse_datetime k with
    | none => none
    | some day =>
      match cotEntries rest with
      | none => none
      | some es =>
        some (Val.obj [("date", Val.dt day.year day.month day.day day.hour day.minute day.second),
                       ("timestamp", Val.int day.timestamp),
                       ("count", v)] :: es)

/-- `SearchApiClient.count_over_time`. -/
def count_over_time (col : String) (net : Net) (query : String) (sd ed : PyDateTime)
    (kwargs : Dict) : Except String Val × List Request :=
  match _overview_query col net query sd ed kwargs with
  | (Except.error e, tr) => (Except.error e, tr)
  | (Except.ok (Val.obj results), tr) =>
    if _is_no_results results then (Except.ok (Val.obj []), tr)
    else
      match getKey? results "dailycounts" with
      | some (Val.obj data) =>
        match cotEntries data with
        | some entries => (Except.ok (Val.obj [("counts", Val.arr entries)]), tr)
        | none => (Except.error "ValueError: invalid date string", tr)
      | some _ => (Except.error "TypeError: dailycounts is not a mapping", tr)
      | none => (Except.error "KeyError: dailycounts", tr)
  | (Except.ok _, tr) => (Except.error "TypeError: envelope is not a mapping", tr)

/-- `SearchApiClient.item`. -/
def item (col : String) (net : Net) (item_id : String) : Except String Val × List Request :=
  match _query net (col ++ "/article/" ++ item_id) none "GET" with
  | (Except.ok (results, _), tr) => (Except.ok results, tr)
  | (Except.error e, tr) => (Except.error e, tr)

/-- `SearchApiClient.terms`. -/
def terms (col : String) (net : Net) (query : String) (sd ed : PyDateTime)
    (field aggregation : String) (kwargs : Dict) : Except String Val × List Request :=
  let params := buildParams query sd ed kwargs
  match _query net (col ++ "/terms/" ++ field ++ "/" ++ aggregation) (some params) "GET" with
  | (Except.ok (results, _), tr) => (Except.ok results, tr)
  | (Except.error e, tr) => (Except.error e, tr)

/-- The pagination loop of `SearchApiClient.all_items`, run against a finite
script of mocked responses (one response per issued request).  It returns the
(request, yielded page) pairs in order.  The loop requests another page
exactly when the previous response header `x-resume-token` is present and
non-empty (Python truthiness), first setting it as the `resume` parameter. -/
def allItemsLoop (ep : String) : List MockResponse → Dict → List (Request × Val)
  | [], _ => []
  | r :: rest, params =>
    (⟨API_BASE_URL ++ ep, some params, "POST"⟩, r.body) ::
      (match getKey? r.headers "x-resume-token" with
       | some t => if t = "" then [] else allItemsLoop ep rest (dictSet params "resume" (Val.str t))
       | none => [])

/-- `SearchApiClient.all_items`, with the network mocked by a response
script.  `page_size` is accepted exactly as in the source, which never
reads it. -/
def all_items (col : String) (responses : List MockResponse) (query : String)
    (sd ed : PyDateTime) (page_size : Nat) (kwargs : Dict) : List (Request × Val) :=
  let params := buildParams query sd ed kwargs
  allItemsLoop (col ++ "/search/result") responses params

/-- Specification view of the continuation test: the resume token of a
response when the `x-resume-token` header is present and non-empty. -/
def tokenOf (r : MockResponse) : Option String :=
  match getKey? r.headers "x-resume-token" with
  | some t => if t = "" then none else some t
  | none => none

/-- Specification view of pagination: how many pages a response script
yields (one per response, continuing exactly while tokens are present). -/
def pageCount : List MockResponse → Nat
  | [] => 0
  | r :: rest => (if (tokenOf r).isSome then pageCount rest else 0) + 1

/-- POSIX seconds of midnight UTC of a civil day. -/
def posixMidnight (y m d : Nat) : Int :=
  daysFromCivil (Int.ofNat y) m d * 86400

/-- A record produced by `_dict_to_list`, decomposed back into its
(name, value) pair; `none` on any other shape. -/
def recordPair : Val → Option (String × Val)
  | Val.obj [("name", Val.str k), ("value", v)] => some (k, v)
  | _ => none

/-- Concrete fixture: the no-results envelope the service sends. -/
def noResultsEnvelope : Dict := [("detail", Val.str "No results found!")]

/-- Concrete fixture: a network that always answers with the no-results
envelope. -/
def noResultsNet : Net := fun _ => ⟨Val.obj noResultsEnvelope, []⟩

/-- Concrete fixture: 2023-01-01 00:00:00. -/
def sampleDay : PyDateTime := ⟨2023, 1, 1, 0, 0, 0⟩

/-- Concrete fixture: 2023-01-02 00:00:00. -/
def sampleDay2 : PyDateTime := ⟨2023, 1, 2, 0, 0, 0⟩

/-- Concrete fixture: an envelope whose `dailycounts` has two days. -/
def dailyEnvelope : Dict :=
  [("dailycounts", Val.obj [("2023-01-01", Val.int 5), ("2023-01-02", Val.int 3)])]

/-- Concrete fixture: a network that always answers with `dailyEnvelope`. -/
def dailyNet : Net := fun _ => ⟨Val.obj dailyEnvelope, []⟩

/-- Concrete fixture: a two-page response script; the first response carries
`x-resume-token: abc`, the second carries no such header. -/
def pagedResponses : List MockResponse :=
  [⟨Val.str "page1", [("x-resume-token", "abc")]⟩, ⟨Val.str "page2", []⟩]

/-! ### Dictionary lemmas -/

theorem hasKey_false_iff {α : Type} (d : List (String × α)) (k : String) :
    hasKey d k = false ↔ getKey? d k = none := by
  unfold hasKey
  cases getKey? d k <;> simp

theorem getKey?_eq_none_of_not_mem {α : Type} {d : List (String × α)} {k : String}
    (h : k ∉ d.map Prod.fst) : getKey? d k = none := by
  induction d with
  | nil => rfl
  | cons p rest ih =>
    simp only [List.map_cons, List.mem_cons, not_or] at h
    have hp : ¬ p.1 = k := fun hc => h.1 hc.symm
    simp only [getKey?, if_neg hp]
    exact ih h.2

theorem getKey?_dictSet_self {α : Type} (d : List (String × α)) (k : String) (v : α) :
    getKey? (dictSet d k v) k = some v := by
  induction d with
  | nil => simp [dictSet, getKey?]
  | cons p rest ih =>
    by_cases h : p.1 = k
    · simp [dictSet, h, getKey?]
    · simp [dictSet, h, getKey?, ih]

theorem getKey?_dictSet_ne {α : Type} (d : List (String × α)) {k k2 : String} (v : α)
    (h : k ≠ k2) : getKey? (dictSet d k2 v) k = getKey? d k := by
  have h2 : ¬ k2 = k := fun hc => h hc.symm
  induction d with
  | nil => simp [dictSet, getKey?, h2]
  | cons p rest ih =>
    by_cases hp : p.1 = k2
    · simp [dictSet, hp, getKey?, h2]
    · by_cases hk : p.1 = k
      · simp [dictSet, hp, getKey?, hk, h]
      · simp [dictSet, hp, getKey?, hk, h, ih]

theorem getKey?_dictUpdate_none {α : Type} (kw : List (String × α)) (k : String) :
    getKey? kw k = none → ∀ d, getKey? (dictUpdate d kw) k = getKey? d k := by
  induction kw with
  | nil => intro _ d; rfl
  | cons p rest ih =>
    intro h d
    by_cases hp : p.1 = k
    · simp [getKey?, hp] at h
    · simp only [getKey?, if_neg hp] at h
      have hupd : dictUpdate d (p :: rest) = dictUpdate (dictSet d p.1 p.2) rest := rfl
      rw [hupd, ih h (dictSet d p.1 p.2),
        getKey?_dictSet_ne d p.2 (show k ≠ p.1 from fun hc => hp hc.symm)]

theorem getKey?_dictUpdate_mem {α : Type} (kw : List (String × α)) (k : String) (v : α) :
    (kw.map Prod.fst).Nodup → (k, v) ∈ kw → ∀ d, getKey? (dictUpdate d kw) k = some v := by
  induction kw with
  | nil => intro _ hmem; cases hmem
  | cons p rest ih =>
    intro hnd hmem d
    simp only [List.map_cons, List.nodup_cons] at hnd
    have hupd : dictUpdate d (p :: rest) = dictUpdate (dictSet d p.1 p.2) rest := rfl
    rcases List.mem_cons.mp hmem with heq | hmem2
    · have hk : k = p.1 := congrArg Prod.fst heq
      have hv : v = p.2 := congrArg Prod.snd heq
      have hnone : getKey? rest k = none :=
        getKey?_eq_none_of_not_mem (by rw [hk]; exact hnd.1)
      rw [hupd, getKey?_dictUpdate_none rest k hnone (dictSet d p.1 p.2), hk, hv]
      exact getKey?_dictSet_self d p.1 p.2
    · rw [hupd]
      exact ih hnd.2 hmem2 _

/-! ### Claim C2 -/

/-- C2: `_is_no_results` holds iff the envelope lacks a `matches` key and
binds `detail` to exactly the string "No results found!"; in particular it
accepts the bare detail envelope, and rejects both an envelope that also has
`matches` and an envelope with neither key. -/
theorem is_no_results_iff (d : Dict) :
    (_is_no_results d = true ↔
      getKey? d "matches" = none ∧ getKey? d "detail" = some (Val.str "No results found!"))
    ∧ _is_no_results [("detail", Val.str "No results found!")] = true
    ∧ _is_no_results [("matches", Val.arr []), ("detail", Val.str "No results found!")] = false
    ∧ _is_no_results [("total", Val.int 5)] = false := by
  refine ⟨?_, by decide, by decide, by decide⟩
  unfold _is_no_results hasKey
  cases hm : getKey? d "matches" with
  | some v => simp [hm]
  | none =>
    cases hd : getKey? d "detail" with
    | none => simp
    | some v =>
      cases v <;> simp_all [beq_iff_eq]

/-! ### Claim C4 -/

/-- C4: for `start_date ≤ end_date`, the date-range clause is exactly
`publication_date:[YYYY-MM-DD TO YYYY-MM-DD]` built from the calendar days,
and it is independent of the time-of-day components of either argument. -/
theorem date_query_clause_spec (s e s2 e2 : PyDateTime) (hle : dtLe s e)
    (hs : s.year = s2.year ∧ s.month = s2.month ∧ s.day = s2.day)
    (he : e.year = e2.year ∧ e.month = e2.month ∧ e.day = e2.day) :
    _date_query_clause s e =
      "publication_date:[" ++ (padNum 4 s.year ++ "-" ++ padNum 2 s.month ++ "-" ++ padNum 2 s.day)
        ++ " TO " ++ (padNum 4 e.year ++ "-" ++ padNum 2 e.month ++ "-" ++ padNum 2 e.day) ++ "]"
    ∧ _date_query_clause s e = _date_query_clause s2 e2 := by
  constructor
  · rfl
  · unfold _date_query_clause strftimeYmd
    rw [hs.1, hs.2.1, hs.2.2, he.1, he.2.1, he.2.2]

/-- Witness for C4: concrete datetimes with distinct times of day. -/
theorem date_query_clause_spec_witness :
    _date_query_clause ⟨2023, 1, 2, 3, 4, 5⟩ ⟨2023, 11, 30, 23, 59, 59⟩ =
      "publication_date:[2023-01-02 TO 2023-11-30]"
    ∧ _date_query_clause ⟨2023, 1, 2, 3, 4, 5⟩ ⟨2023, 11, 30, 23, 59, 59⟩ =
      _date_query_clause ⟨2023, 1, 2, 0, 0, 0⟩ ⟨2023, 11, 30, 1, 2, 3⟩ := by
  have h := date_query_clause_spec ⟨2023, 1, 2, 3, 4, 5⟩ ⟨2023, 11, 30, 23, 59, 59⟩
    ⟨2023, 1, 2, 0, 0, 0⟩ ⟨2023, 11, 30, 1, 2, 3⟩ (by decide)
    ⟨rfl, rfl, rfl⟩ ⟨rfl, rfl, rfl⟩
  exact ⟨h.1.trans (by decide), h.2⟩

/-! ### Claim C7 -/

/-- Every pair in `l.zip (l.map f)` has second component `f` of the first. -/
theorem zip_map_pair {α β : Type} (f : α → β) (l : List α) :
    ∀ p ∈ l.zip (l.map f), p.2 = f p.1 := by
  induction l with
  | nil => intro p hp; cases hp
  | cons a rest ih =>
    intro p hp
    rcases List.mem_cons.mp hp with heq | hmem
    · rw [heq]
    · exact ih p hmem

/-- C7: dict-to-list conversion yields one `name`/`value` record per entry in
iteration order, round-trips back to the original mapping, and maps the
two-entry example to the documented list. -/
theorem dict_to_list_spec (data : Dict) :
    (_dict_to_list data).length = data.length
    ∧ (∀ p ∈ data.zip (_dict_to_list data),
        p.2 = Val.obj [("name", Val.str p.1.1), ("value", p.1.2)])
    ∧ (_dict_to_list data).mapM recordPair = some data
    ∧ _dict_to_list [("a", Val.int 1), ("b", Val.int 2)] =
        [Val.obj [("name", Val.str "a"), ("value", Val.int 1)],
         Val.obj [("name", Val.str "b"), ("value", Val.int 2)]] := by
  refine ⟨by simp [_dict_to_list], ?_, ?_, rfl⟩
  · intro p hp
    exact zip_map_pair _ data p hp
  · induction data with
    | nil => rfl
    | cons p rest ih =>
      simp only [_dict_to_list, List.map_cons, List.mapM_cons] at ih ⊢
      rw [ih]
      rfl

/-- Witness for C7: the round trip on the documented example. -/
theorem dict_to_list_spec_witness :
    (_dict_to_list [("a", Val.int 1), ("b", Val.int 2)]).mapM recordPair
      = some [("a", Val.int 1), ("b", Val.int 2)] :=
  (dict_to_list_spec [("a", Val.int 1), ("b", Val.int 2)]).2.2.1

/-! ### Claim C8 -/

/-- C8: for any method other than GET and POST, `_query` fails with the
unsupported-method error and issues no request at all. -/
theorem query_unsupported_method (net : Net) (endpoint : String) (params : Option Dict)
    (method : String) (h1 : method ≠ "GET") (h2 : method ≠ "POST") :
    _query net endpoint params method =
      (Except.error ("Unsupported method of " ++ squote ++ method ++ squote), []) := by
  simp [_query, h1, h2]

/-- Witness for C8: dispatching with method PUT. -/
theorem query_unsupported_method_witness :
    _query (fun _ => ⟨Val.obj [], []⟩) "c/search/result" none "PUT" =
      (Except.error ("Unsupported method of " ++ squote ++ "PUT" ++ squote), []) :=
  query_unsupported_method _ _ _ _ (by decide) (by decide)

/-! ### Claim C9 -/

/-- C9: `item` issues a single GET to `<collection>/article/<item_id>` with
no parameters and returns the parsed body unchanged, and `terms` issues a
single GET to `<collection>/terms/<field>/<aggregation>` with the built
parameters and returns the parsed body unchanged. -/
theorem item_terms_endpoints (col : String) (net : Net) (item_id : String)
    (query : String) (sd ed : PyDateTime) (field aggregation : String) (kwargs : Dict) :
    item col net item_id =
      (Except.ok (net ⟨API_BASE_URL ++ (col ++ "/article/" ++ item_id), none, "GET"⟩).body,
       [⟨API_BASE_URL ++ (col ++ "/article/" ++ item_id), none, "GET"⟩])
    ∧ terms col net query sd ed field aggregation kwargs =
      (Except.ok (net ⟨API_BASE_URL ++ (col ++ "/terms/" ++ field ++ "/" ++ aggregation),
          some (buildParams query sd ed kwargs), "GET"⟩).body,
       [⟨API_BASE_URL ++ (col ++ "/terms/" ++ field ++ "/" ++ aggregation),
          some (buildParams query sd ed kwargs), "GET"⟩]) :=
  ⟨rfl, rfl⟩

/-! ### Shared lemmas about the overview call, lookups and pagination -/

theorem mem_of_getKey? {α : Type} {d : List (String × α)} {k : String} {v : α}
    (h : getKey? d k = some v) : (k, v) ∈ d := by
  induction d with
  | nil => cases h
  | cons p rest ih =>
    by_cases hp : p.1 = k
    · simp only [getKey?, if_pos hp] at h
      have hv : p.2 = v := Option.some.inj h
      rw [← hp, ← hv]
      exact List.mem_cons_self p rest
    · simp only [getKey?, if_neg hp] at h
      exact List.mem_cons_of_mem p (ih h)

theorem overview_query_eq (col : String) (net : Net) (query : String) (sd ed : PyDateTime)
    (kwargs : Dict) :
    _overview_query col net query sd ed kwargs =
      (Except.ok (net (overviewRequest col query sd ed kwargs)).body,
       [overviewRequest col query sd ed kwargs]) := rfl

theorem allItemsLoop_cons (ep : String) (r : MockResponse) (rest : List MockResponse)
    (p : Dict) :
    allItemsLoop ep (r :: rest) p =
      (⟨API_BASE_URL ++ ep, some p, "POST"⟩, r.body) ::
        (match tokenOf r with
         | some t => allItemsLoop ep rest (dictSet p "resume" (Val.str t))
         | none => []) := by
  rw [allItemsLoop]
  simp only [tokenOf]
  cases hh : getKey? r.headers "x-resume-token" with
  | none => rfl
  | some t => by_cases ht : t = "" <;> simp [ht]

theorem allItemsLoop_params (ep k : String) (hk : k ≠ "resume") :
    ∀ (rs : List MockResponse) (p : Dict), ∀ pr ∈ allItemsLoop ep rs p,
      ∃ ps, pr.1.params = some ps ∧ getKey? ps k = getKey? p k := by
  intro rs
  induction rs with
  | nil => intro p pr hpr; cases hpr
  | cons r rest ih =>
    intro p pr hpr
    rw [allItemsLoop_cons] at hpr
    rcases List.mem_cons.mp hpr with heq | hmem
    · refine ⟨p, ?_, rfl⟩
      rw [heq]
    · cases htok : tokenOf r with
      | none => rw [htok] at hmem; cases hmem
      | some t =>
        rw [htok] at hmem
        obtain ⟨ps, hps, hget⟩ := ih (dictSet p "resume" (Val.str t)) pr hmem
        exact ⟨ps, hps, hget.trans (getKey?_dictSet_ne p (Val.str t) hk)⟩

theorem allItemsLoop_length (ep : String) :
    ∀ (rs : List MockResponse) (p : Dict), (allItemsLoop ep rs p).length = pageCount rs := by
  intro rs
  induction rs with
  | nil => intro p; rfl
  | cons r rest ih =>
    intro p
    rw [allItemsLoop_cons]
    cases htok : tokenOf r with
    | none => simp [pageCount, htok]
    | some t => simp [pageCount, htok, ih]

theorem allItemsLoop_pages (ep : String) :
    ∀ (rs : List MockResponse) (p : Dict),
      (allItemsLoop ep rs p).map Prod.snd = (rs.take (pageCount rs)).map MockResponse.body := by
  intro rs
  induction rs with
  | nil => intro p; rfl
  | cons r rest ih =>
    intro p
    rw [allItemsLoop_cons]
    cases htok : tokenOf r with
    | none => simp [pageCount, htok]
    | some t => simp [pageCount, htok, ih]

theorem allItemsLoop_requests (ep : String) :
    ∀ (rs : List MockResponse) (p : Dict), ∀ pr ∈ allItemsLoop ep rs p,
      pr.1.method = "POST" ∧ pr.1.url = API_BASE_URL ++ ep := by
  intro rs
  induction rs with
  | nil => intro p pr hpr; cases hpr
  | cons r rest ih =>
    intro p pr hpr
    rw [allItemsLoop_cons] at hpr
    rcases List.mem_cons.mp hpr with heq | hmem
    · rw [heq]; exact ⟨rfl, rfl⟩
    · cases htok : tokenOf r with
      | none => rw [htok] at hmem; cases hmem
      | some t =>
        rw [htok] at hmem
        exact ih (dictSet p "resume" (Val.str t)) pr hmem

theorem allItemsLoop_first (ep : String) :
    ∀ (rs : List MockResponse) (p : Dict) (pr : Request × Val),
      (allItemsLoop ep rs p)[0]? = some pr → pr.1.params = some p := by
  intro rs p pr h
  cases rs with
  | nil => simp [allItemsLoop] at h
  | cons r rest =>
    rw [allItemsLoop_cons] at h
    simp only [List.getElem?_cons_zero, Option.some.injEq] at h
    rw [← h]

theorem allItemsLoop_resume (ep : String) :
    ∀ (rs : List MockResponse) (p : Dict) (i : Nat) (pr : Request × Val),
      (allItemsLoop ep rs p)[i + 1]? = some pr →
      ∃ r t, rs[i]? = some r ∧ tokenOf r = some t
        ∧ ∃ ps, pr.1.params = some ps ∧ getKey? ps "resume" = some (Val.str t) := by
  intro rs
  induction rs with
  | nil => intro p i pr h; simp [allItemsLoop] at h
  | cons r rest ih =>
    intro p i pr h
    rw [allItemsLoop_cons] at h
    cases htok : tokenOf r with
    | none =>
      rw [htok] at h
      simp at h
    | some t =>
      rw [htok] at h
      simp only [List.getElem?_cons_succ] at h
      cases i with
      | zero =>
        have hfst := allItemsLoop_first ep rest (dictSet p "resume" (Val.str t)) pr h
        exact ⟨r, t, by simp, htok,
          dictSet p "resume" (Val.str t), hfst, getKey?_dictSet_self p "resume" (Val.str t)⟩
      | succ j =>
        obtain ⟨r2, t2, hr2, ht2, ps, hps, hget⟩ := ih (dictSet p "resume" (Val.str t)) j pr h
        exact ⟨r2, t2, by simpa using hr2, ht2, ps, hps, hget⟩

/-! ### Date-parsing lemmas -/

theorem parse_datetime_midnight {s : String} {day : PyDateTime}
    (h : parse_datetime s = some day) :
    day.hour = 0 ∧ day.minute = 0 ∧ day.second = 0 := by
  unfold parse_datetime at h
  split at h
  · split at h
    · split at h
      · rw [← Option.some.inj h]
        exact ⟨rfl, rfl, rfl⟩
      · exact absurd h (by simp)
    · exact absurd h (by simp)
  · exact absurd h (by simp)

theorem day_timestamp_midnight (day : PyDateTime) (h0 : day.hour = 0) (h1 : day.minute = 0)
    (h2 : day.second = 0) :
    day.timestamp = posixMidnight day.year day.month day.day := by
  unfold PyDateTime.timestamp posixMidnight
  rw [h0, h1, h2]
  simp

theorem cotEntries_spec (data : Dict) :
    (∀ p ∈ data, (parse_datetime p.1).isSome) →
    ∃ es, cotEntries data = some es ∧ es.length = data.length ∧
      ∀ pr ∈ data.zip es, ∃ day : PyDateTime,
        parse_datetime pr.1.1 = some day
        ∧ day.hour = 0 ∧ day.minute = 0 ∧ day.second = 0
        ∧ pr.2 = Val.obj [("date", Val.dt day.year day.month day.day 0 0 0),
                          ("timestamp", Val.int (posixMidnight day.year day.month day.day)),
                          ("count", pr.1.2)] := by
  induction data with
  | nil =>
    intro _
    exact ⟨[], rfl, rfl, by intro pr hpr; cases hpr⟩
  | cons p rest ih =>
    intro hall
    have hp := hall p (List.mem_cons_self p rest)
    cases hday : parse_datetime p.1 with
    | none => rw [hday] at hp; cases hp
    | some day =>
      obtain ⟨es, hes, hlen, hzip⟩ := ih (fun q hq => hall q (List.mem_cons_of_mem p hq))
      obtain ⟨hh, hm, hs⟩ := parse_datetime_midnight hday
      refine ⟨Val.obj [("date", Val.dt day.year day.month day.day day.hour day.minute day.second),
                       ("timestamp", Val.int day.timestamp),
                       ("count", p.2)] :: es, ?_, ?_, ?_⟩
      · simp only [cotEntries, hday, hes]
      · simp [hlen]
      · intro pr hpr
        rcases List.mem_cons.mp (by simpa [List.zip_cons_cons] using hpr) with heq | hmem
        · refine ⟨day, by rw [heq]; exact hday, hh, hm, hs, ?_⟩
          rw [heq]
          rw [hh, hm, hs, day_timestamp_midnight day hh hm hs]
        · exact hzip pr hmem

/-! ### Claim C1 -/

/-- C1: over any finite response script, `all_items` yields one page per
issued POST to `<collection>/search/result`, yields exactly the bodies of the
consumed prefix in order, stops exactly when a response has no present,
non-empty `x-resume-token` header, sends the built parameters on the first
request (hence no `resume` when the caller supplied none), and sends each
later request with `resume` bound to the previous response's token. -/
theorem all_items_pagination (col : String) (responses : List MockResponse) (query : String)
    (sd ed : PyDateTime) (psz : Nat) (kwargs : Dict) :
    (all_items col responses query sd ed psz kwargs).length = pageCount responses
    ∧ (all_items col responses query sd ed psz kwargs).map Prod.snd
        = (responses.take (pageCount responses)).map MockResponse.body
    ∧ (∀ pr ∈ all_items col responses query sd ed psz kwargs,
        pr.1.method = "POST" ∧ pr.1.url = API_BASE_URL ++ (col ++ "/search/result"))
    ∧ (∀ pr, (all_items col responses query sd ed psz kwargs)[0]? = some pr →
        pr.1.params = some (buildParams query sd ed kwargs))
    ∧ (hasKey kwargs "resume" = false →
        ∀ pr, (all_items col responses query sd ed psz kwargs)[0]? = some pr →
          ∃ ps, pr.1.params = some ps ∧ getKey? ps "resume" = none)
    ∧ (∀ i pr, (all_items col responses query sd ed psz kwargs)[i + 1]? = some pr →
        ∃ r t, responses[i]? = some r ∧ tokenOf r = some t
          ∧ ∃ ps, pr.1.params = some ps ∧ getKey? ps "resume" = some (Val.str t)) := by
  refine ⟨allItemsLoop_length _ _ _, allItemsLoop_pages _ _ _,
    fun pr hpr => allItemsLoop_requests _ _ _ pr hpr,
    fun pr h => allItemsLoop_first _ _ _ pr h, ?_,
    fun i pr h => allItemsLoop_resume _ _ _ i pr h⟩
  intro hres pr h
  refine ⟨buildParams query sd ed kwargs, allItemsLoop_first _ _ _ pr h, ?_⟩
  have h0 : getKey? kwargs "resume" = none := (hasKey_false_iff kwargs "resume").mp hres
  unfold buildParams
  rw [getKey?_dictUpdate_none kwargs "resume" h0]
  rfl

/-- Witness for C1: the documented two-response scenario; the script with
token `abc` then no token yields exactly two pages, the first request
carrying no `resume` parameter and the second carrying `resume = "abc"`. -/
theorem all_items_pagination_witness :
    all_items "c" pagedResponses "q" sampleDay sampleDay2 7 [] =
      [(⟨API_BASE_URL ++ ("c" ++ "/search/result"),
          some [("q", Val.str "q AND publication_date:[2023-01-01 TO 2023-01-02]")], "POST"⟩,
        Val.str "page1"),
       (⟨API_BASE_URL ++ ("c" ++ "/search/result"),
          some [("q", Val.str "q AND publication_date:[2023-01-01 TO 2023-01-02]"),
                ("resume", Val.str "abc")], "POST"⟩,
        Val.str "page2")] := by
  have h := all_items_pagination "c" pagedResponses "q" sampleDay sampleDay2 7 []
  exact rfl

/-! ### Claim C3 -/

/-- C3: whenever the overview response satisfies the no-results predicate,
`sample`, `top_sources`, `top_tlds` and `top_languages` return the empty
list, `count` returns 0, and `count_over_time` returns the empty mapping,
none of them failing. -/
theorem no_results_methods (col : String) (net : Net) (query : String) (sd ed : PyDateTime)
    (kwargs : Dict) (d : Dict)
    (henv : (net (overviewRequest col query sd ed kwargs)).body = Val.obj d)
    (hnr : _is_no_results d = true) :
    (sample col net query sd ed kwargs).1 = Except.ok (Val.arr [])
    ∧ (top_sources col net query sd ed kwargs).1 = Except.ok (Val.arr [])
    ∧ (top_tlds col net query sd ed kwargs).1 = Except.ok (Val.arr [])
    ∧ (top_languages col net query sd ed kwargs).1 = Except.ok (Val.arr [])
    ∧ (count col net query sd ed kwargs).1 = Except.ok (Val.int 0)
    ∧ (count_over_time col net query sd ed kwargs).1 = Except.ok (Val.obj []) := by
  have hov := overview_query_eq col net query sd ed kwargs
  refine ⟨?_, ?_, ?_, ?_, ?_, ?_⟩
  · simp [sample, hov, henv, hnr]
  · simp [top_sources, hov, henv, hnr]
  · simp [top_tlds, hov, henv, hnr]
  · simp [top_languages, hov, henv, hnr]
  · simp [count, hov, henv, hnr]
  · simp [count_over_time, hov, henv, hnr]

/-- Witness for C3: the literal no-results envelope. -/
theorem no_results_methods_witness :
    (sample "c" noResultsNet "q" sampleDay sampleDay2 []).1 = Except.ok (Val.arr [])
    ∧ (top_sources "c" noResultsNet "q" sampleDay sampleDay2 []).1 = Except.ok (Val.arr [])
    ∧ (top_tlds "c" noResultsNet "q" sampleDay sampleDay2 []).1 = Except.ok (Val.arr [])
    ∧ (top_languages "c" noResultsNet "q" sampleDay sampleDay2 []).1 = Except.ok (Val.arr [])
    ∧ (count "c" noResultsNet "q" sampleDay sampleDay2 []).1 = Except.ok (Val.int 0)
    ∧ (count_over_time "c" noResultsNet "q" sampleDay sampleDay2 []).1 = Except.ok (Val.obj []) :=
  no_results_methods "c" noResultsNet "q" sampleDay sampleDay2 [] noResultsEnvelope rfl rfl

/-! ### Claim C5 -/

/-- C5: every search-bearing call sends the parameter mapping built as
`{"q": "<query> AND <date clause>"}` updated with the caller's keyword
arguments: the overview POST and the terms GET send exactly that mapping,
every `all_items` request preserves its `q` binding, the mapping always
contains `q`, binds `q` to the constructed query when the caller supplied no
`q`, and binds every caller-supplied key to the caller's value (so a
caller-supplied `q` replaces the constructed one). -/
theorem search_params_spec (col : String) (net : Net) (responses : List MockResponse)
    (query : String) (sd ed : PyDateTime) (field aggregation : String) (psz : Nat)
    (kwargs : Dict) (hnd : (kwargs.map Prod.fst).Nodup) :
    (_overview_query col net query sd ed kwargs).2 = [overviewRequest col query sd ed kwargs]
    ∧ (terms col net query sd ed field aggregation kwargs).2 =
        [⟨API_BASE_URL ++ (col ++ "/terms/" ++ field ++ "/" ++ aggregation),
          some (buildParams query sd ed kwargs), "GET"⟩]
    ∧ (∀ pr ∈ all_items col responses query sd ed psz kwargs, ∃ ps,
        pr.1.params = some ps
        ∧ getKey? ps "q" = getKey? (buildParams query sd ed kwargs) "q")
    ∧ (hasKey kwargs "q" = false →
        getKey? (buildParams query sd ed kwargs) "q" =
          some (Val.str (query ++ " AND " ++ _date_query_clause sd ed)))
    ∧ (∀ k v, (k, v) ∈ kwargs → getKey? (buildParams query sd ed kwargs) k = some v)
    ∧ ∃ v, getKey? (buildParams query sd ed kwargs) "q" = some v := by
  refine ⟨rfl, rfl, ?_, ?_, ?_, ?_⟩
  · intro pr hpr
    exact allItemsLoop_params (col ++ "/search/result") "q" (by decide) responses
      (buildParams query sd ed kwargs) pr hpr
  · intro hq
    have h0 : getKey? kwargs "q" = none := (hasKey_false_iff kwargs "q").mp hq
    unfold buildParams
    rw [getKey?_dictUpdate_none kwargs "q" h0]
    rfl
  · intro k v hmem
    unfold buildParams
    exact getKey?_dictUpdate_mem kwargs k v hnd hmem _
  · cases hq : getKey? kwargs "q" with
    | none =>
      refine ⟨Val.str (query ++ " AND " ++ _date_query_clause sd ed), ?_⟩
      unfold buildParams
      rw [getKey?_dictUpdate_none kwargs "q" hq]
      rfl
    | some v0 =>
      refine ⟨v0, ?_⟩
      unfold buildParams
      exact getKey?_dictUpdate_mem kwargs "q" v0 hnd (mem_of_getKey? hq) _

/-- Witness for C5: a caller-supplied `q` replaces the constructed query, a
caller-supplied `sort` is merged verbatim, and with no caller `q` the
constructed query is sent. -/
theorem search_params_spec_witness :
    getKey? (buildParams "orig" sampleDay sampleDay2
        [("sort", Val.str "date"), ("q", Val.str "override")]) "q"
      = some (Val.str "override")
    ∧ getKey? (buildParams "orig" sampleDay sampleDay2
        [("sort", Val.str "date"), ("q", Val.str "override")]) "sort"
      = some (Val.str "date")
    ∧ getKey? (buildParams "orig" sampleDay sampleDay2 []) "q"
      = some (Val.str ("orig" ++ " AND " ++ _date_query_clause sampleDay sampleDay2)) := by
  have h := search_params_spec "c" noResultsNet [] "orig" sampleDay sampleDay2 "title" "top" 3
    [("sort", Val.str "date"), ("q", Val.str "override")] (by decide)
  have h2 := search_params_spec "c" noResultsNet [] "orig" sampleDay sampleDay2 "title" "top" 3
    [] (by decide)
  exact ⟨h.2.2.2.2.1 "q" _ (List.mem_cons_of_mem _ (List.mem_cons_self _ _)),
    h.2.2.2.2.1 "sort" _ (List.mem_cons_self _ _),
    h2.2.2.2.1 rfl⟩

/-! ### Claim C6 -/

/-- C6: on a non-no-results envelope whose `dailycounts` keys are well-formed
date strings, `count_over_time` returns `{'counts': [...]}` with exactly one
entry per key in order, each entry holding the parsed midnight datetime of
the day, that day's POSIX epoch seconds as `timestamp`, and the original
count. -/
theorem count_over_time_daily (col : String) (net : Net) (query : String) (sd ed : PyDateTime)
    (kwargs : Dict) (d : Dict) (data : Dict)
    (henv : (net (overviewRequest col query sd ed kwargs)).body = Val.obj d)
    (hnr : _is_no_results d = false)
    (hdc : getKey? d "dailycounts" = some (Val.obj data))
    (hfmt : ∀ p ∈ data, (parse_datetime p.1).isSome) :
    ∃ entries : List Val,
      (count_over_time col net query sd ed kwargs).1
        = Except.ok (Val.obj [("counts", Val.arr entries)])
      ∧ entries.length = data.length
      ∧ ∀ pr ∈ data.zip entries, ∃ day : PyDateTime,
          parse_datetime pr.1.1 = some day
          ∧ day.hour = 0 ∧ day.minute = 0 ∧ day.second = 0
          ∧ pr.2 = Val.obj [("date", Val.dt day.year day.month day.day 0 0 0),
                            ("timestamp", Val.int (posixMidnight day.year day.month day.day)),
                            ("count", pr.1.2)] := by
  obtain ⟨es, hes, hlen, hzip⟩ := cotEntries_spec data hfmt
  refine ⟨es, ?_, hlen, hzip⟩
  have hov := overview_query_eq col net query sd ed kwargs
  simp [count_over_time, hov, henv, hnr, hdc, hes]

/-- Witness for C6: `dailycounts = {2023-01-01: 5, 2023-01-02: 3}` yields two
entries with the documented midnight dates and POSIX timestamps. -/
theorem count_over_time_daily_witness :
    (count_over_time "c" dailyNet "q" sampleDay sampleDay2 []).1
      = Except.ok (Val.obj [("counts", Val.arr
          [Val.obj [("date", Val.dt 2023 1 1 0 0 0),
                    ("timestamp", Val.int 1672531200), ("count", Val.int 5)],
           Val.obj [("date", Val.dt 2023 1 2 0 0 0),
                    ("timestamp", Val.int 1672617600), ("count", Val.int 3)]])]) := by
  have h := count_over_time_daily "c" dailyNet "q" sampleDay sampleDay2 [] dailyEnvelope
    [("2023-01-01", Val.int 5), ("2023-01-02", Val.int 3)] rfl rfl rfl (by decide)
  exact rfl

/-! ### Claim C10 -/

/-- C10: `all_items` ignores its `page_size` argument entirely: two runs that
differ only in `page_size` issue identical requests and yield identical
pages, and no request carries a `page_size` parameter unless the caller put
one in the keyword arguments. -/
theorem page_size_ignored (col : String) (responses : List MockResponse) (query : String)
    (sd ed : PyDateTime) (p1 p2 : Nat) (kwargs : Dict) :
    all_items col responses query sd ed p1 kwargs = all_items col responses query sd ed p2 kwargs
    ∧ (hasKey kwargs "page_size" = false →
        ∀ pr ∈ all_items col responses query sd ed p1 kwargs,
          ∃ ps, pr.1.params = some ps ∧ getKey? ps "page_size" = none) := by
  refine ⟨rfl, ?_⟩
  intro hks pr hpr
  obtain ⟨ps, hps, hget⟩ := allItemsLoop_params (col ++ "/search/result") "page_size"
    (by decide) responses (buildParams query sd ed kwargs) pr hpr
  refine ⟨ps, hps, ?_⟩
  rw [hget]
  have h0 : getKey? kwargs "page_size" = none := (hasKey_false_iff kwargs "page_size").mp hks
  unfold buildParams
  rw [getKey?_dictUpdate_none kwargs "page_size" h0]
  rfl

/-- Witness for C10: page sizes 5 and 1000 give identical runs. -/
theorem page_size_ignored_witness :
    all_items "c" pagedResponses "q" sampleDay sampleDay2 5 []
      = all_items "c" pagedResponses "q" sampleDay sampleDay2 1000 [] :=
  (page_size_ignored "c" pagedResponses "q" sampleDay sampleDay2 5 1000 []).1

end WaybackNews
